import Mathlib

/-!
Verification development for the mcp-postgresql repository.

The Python source is shallowly embedded: pure request-handling logic becomes
Lean functions, the database connection becomes an explicit oracle of type
`DB`, and HTTP traffic to the completion providers becomes explicit outcome
values.  Exceptions raised and caught in the Python code are modelled with
`Except` or with dedicated constructors.
-/

namespace MCP

/-! ## Python string primitives

The source uses the Python built-ins startswith, lower and strip.  They are
embedded as structurally recursive functions over the character list of a
string so that concrete instances evaluate inside the kernel. -/

/-- Check of one character list being a prefix of another. -/
def listIsPrefixOf : List Char → List Char → Bool
  | [], _ => true
  | _ :: _, [] => false
  | a :: as, b :: bs => a = b && listIsPrefixOf as bs

/-- Embeds the Python method s.startswith(pre). -/
def py_starts_with (s pre : String) : Bool :=
  listIsPrefixOf pre.data s.data

/-- Embeds the Python method s.lower() on ASCII text. -/
def pyLower (s : String) : String :=
  String.mk (s.data.map Char.toLower)

/-- Embeds the Python method s.strip(): drop whitespace from both ends. -/
def pyStrip (s : String) : String :=
  String.mk (((s.data.dropWhile Char.isWhitespace).reverse.dropWhile
    Char.isWhitespace).reverse)

/-- Scalar values carried in rows, JSON bodies and bound SQL parameters. -/
inductive Value
  | str (s : String)
  | int (n : Int)
  | bool (b : Bool)
  | null
  deriving DecidableEq

/-- Rendering of a value by Python str, as used when formatting sample rows. -/
def pyStr : Value → String
  | Value.str s => s
  | Value.int n => toString n
  | Value.bool b => if b then "True" else "False"
  | Value.null => "None"

/-- Database oracle: a raw SQL text and bound parameters either produce the
fetched rows or raise an error carrying a message.  This stands for
execute_query in app/models/dynamic.py lines 34 to 41, which opens a
connection, executes, and returns result.fetchall(). -/
def DB : Type := String → List (String × Value) → Except String (List (List Value))

/-- Column metadata as built by get_table_info in app/models/dynamic.py:
name, displayed type, nullability, optional default expression, primary-key
flag. -/
structure ColumnInfo where
  name : String
  type_ : String
  nullable : Bool
  default : Option String
  primary_key : Bool
  deriving DecidableEq

/-- Foreign-key metadata as built by get_table_info. -/
structure FKInfo where
  constrained_columns : List String
  referred_table : String
  referred_columns : List String
  deriving DecidableEq

/-- Table metadata as returned by get_table_info in app/models/dynamic.py. -/
structure TableInfo where
  name : String
  columns : List ColumnInfo
  foreign_keys : List FKInfo
  primary_keys : List String
  deriving DecidableEq

/-- The reflected catalog: the tables of the module-level MetaData object,
in catalog order. -/
def Catalog : Type := List TableInfo

/-- Lookup of a table by name; stands both for get_table and for
get_table_info in app/models/dynamic.py, which consult the same
metadata.tables mapping. -/
def get_table_info (cat : Catalog) (table_name : String) : Option TableInfo :=
  cat.find? (fun t => t.name = table_name)

/-! ## SSE event stream (app/routes/sse.py)

The generator in stream_llm_response emits messages built by
_format_sse_message.  Each emitted event is one of the payload shapes below.
-/

/-- One server-sent event as emitted by the generate() generator in
app/routes/sse.py lines 69 to 91. -/
inductive SSEEvent
  | started (model : String)
  | chunk (text : String)
  | completed
  | error (text : String)
  | close
  deriving DecidableEq

/-- One step of the upstream chunk generator as observed by the relay loop:
either a yielded text fragment, or the iteration raising an exception whose
message is msg.  Items after a fail are unreachable and ignored. -/
inductive UpItem
  | chunk (s : String)
  | fail (msg : String)
  deriving DecidableEq

/-- The body of generate() after the started event (app/routes/sse.py lines
78 to 91): the for-loop yields one chunk event per upstream fragment; an
exception from the iteration is caught and becomes one error event, skipping
the completed event; the close event always follows. -/
def relay_loop : List UpItem → List SSEEvent
  | [] => [SSEEvent.completed, SSEEvent.close]
  | UpItem.chunk s :: rest => SSEEvent.chunk s :: relay_loop rest
  | UpItem.fail m :: _ => [SSEEvent.error m, SSEEvent.close]

/-- Outcome of consuming the generate() generator: either it raises before
yielding anything, or it yields a list of events. -/
inductive GenOutcome
  | raised (msg : String)
  | events (es : List SSEEvent)
  deriving DecidableEq

/-! ## LLM client layer (app/llm/llm_client.py) -/

/-- The instance state LLMClient.__init__ sets (llm_client.py lines 10 to
21): api_key, api_url and model, each resolved from the argument, the
environment or the configuration.  No other attribute is ever set on the
instance and the class defines no property or getattr hook. -/
structure LLMClientInst where
  api_key : String
  api_url : String
  model : String
  deriving DecidableEq

/-- Python attribute lookup on an LLMClient instance: the three attributes
set by init resolve to their values, and any other name raises
AttributeError.  The quote marks of the Python error message are elided. -/
def llm_client_getattr (c : LLMClientInst) (attr : String) :
    Except String String :=
  if attr = "api_key" then Except.ok c.api_key
  else if attr = "api_url" then Except.ok c.api_url
  else if attr = "model" then Except.ok c.model
  else Except.error
    ("AttributeError: LLMClient object has no attribute " ++ attr)

/-- One upstream SSE event as the parse in LLMClient._stream_response
distinguishes them (app/llm/llm_client.py lines 104 to 117): the sentinel
DONE data, a JSON payload whose choices[0].delta carries a content string, a
JSON payload without such content (KeyError path or content absent), or an
undecodable payload (JSONDecodeError path). -/
inductive UpEvent
  | done
  | delta (content : String)
  | noDelta
  | badJson
  deriving DecidableEq

/-- The event loop of LLMClient._stream_response: stop at the DONE sentinel,
yield each nonempty content delta, skip decode failures and contentless
payloads. -/
def process_events : List UpEvent → List String
  | [] => []
  | UpEvent.done :: _ => []
  | UpEvent.delta c :: rest =>
      if c = "" then process_events rest else c :: process_events rest
  | UpEvent.noDelta :: rest => process_events rest
  | UpEvent.badJson :: rest => process_events rest

/-- Outcome of the streaming HTTP call made by LLMClient._stream_response:
either the request raises a transport error with a message, or it succeeds
and delivers a sequence of SSE events. -/
inductive HttpStreamOutcome
  | requestFail (msg : String)
  | ok (events : List UpEvent)
  deriving DecidableEq

/-- The chunk sequence yielded by LLMClient._stream_response
(app/llm/llm_client.py lines 90 to 121): a RequestException is caught
inside the generator and yields a single error-text fragment; otherwise the
events are processed one by one.  In both cases the generator terminates
normally and never propagates an exception to its consumer. -/
def stream_response : HttpStreamOutcome → List String
  | HttpStreamOutcome.requestFail msg =>
      ["Error generating streaming response: " ++ msg]
  | HttpStreamOutcome.ok evts => process_events evts

/-- The generate() generator of stream_llm_response (app/routes/sse.py
lines 69 to 91) as observed by its consumer.  Its first yield (lines 73 to
76) builds the started payload by reading llm_client.model_name; this yield
sits outside the try block, so when the attribute read raises the generator
raises before emitting anything.  When the read succeeds the generator
yields the started event and then the relay loop over the upstream items. -/
def generate (model_name : Except String String) (upstream : List UpItem) :
    GenOutcome :=
  match model_name with
  | Except.error e => GenOutcome.raised e
  | Except.ok m => GenOutcome.events (SSEEvent.started m :: relay_loop upstream)

/-- Responses of POST /sse/llm. -/
inductive RouteResponse
  | badRequest (msg : String)
  | errorMessage (msg : String)
  | stream (body : GenOutcome)
  deriving DecidableEq

/-- The stream_llm_response handler (app/routes/sse.py lines 35 to 107) for
a request whose context generation and client construction succeed.  A
request without a prompt is answered 400 with one message event.  Otherwise
line 67 logs the model by reading llm_client.model_name inside the outer
try block; LLMClient never sets that attribute, so the read raises
AttributeError, the except clause at line 102 catches it, and the response
is a single message event carrying the error text.  Only if that read
succeeded would the handler return the streaming response wrapping
generate(), whose own started payload reads the same attribute again (line
75) and which consumes the chunks of LLMClient._stream_response, a
generator that never raises, so every relay item would be a chunk. -/
def stream_llm_response (c : LLMClientInst) (prompt : Option String)
    (up : HttpStreamOutcome) : RouteResponse :=
  match prompt with
  | none => RouteResponse.badRequest "Prompt is required"
  | some _ =>
    match llm_client_getattr c "model_name" with
    | Except.error e => RouteResponse.errorMessage e
    | Except.ok _ =>
        RouteResponse.stream
          (generate (llm_client_getattr c "model_name")
            ((stream_response up).map UpItem.chunk))

/-! ## Provider implementations and the factory (app/llm/model_factory.py) -/

/-- Shape of the JSON payload a client posts to its upstream: the chat style
sends a messages array, the prompt style sends a prompt field plus optional
system field. -/
inductive PayloadShape
  | chatMessages
  | promptField
  deriving DecidableEq

/-- The concrete client classes of the repository: LLMClient from
app/llm/llm_client.py, and OpenAIClient and OllamaClient from
app/llm/model_factory.py, each holding its model name. -/
inductive ClientImpl
  | legacyLLMClient (model : Option String)
  | openAIClient (model : String)
  | ollamaClient (model : String)
  deriving DecidableEq

/-- Payload shape used by each generate_completion implementation:
LLMClient (llm_client.py lines 36 to 65) and OpenAIClient
(model_factory.py lines 54 to 92) build a messages payload; OllamaClient
(model_factory.py lines 158 to 182) builds a prompt payload. -/
def payload_shape : ClientImpl → PayloadShape
  | ClientImpl.legacyLLMClient _ => PayloadShape.chatMessages
  | ClientImpl.openAIClient _ => PayloadShape.chatMessages
  | ClientImpl.ollamaClient _ => PayloadShape.promptField

/-- Test of model_factory.py line 249: the OpenAI family name patterns. -/
def is_openai_family (name : String) : Bool :=
  py_starts_with name "gpt" || py_starts_with name "text-davinci"
    || py_starts_with name "davinci"

/-- Test of model_factory.py line 251: the Anthropic family names. -/
def is_claude_family (name : String) : Bool :=
  name = "claude" || name = "claude-2" || name = "claude-instant"
    || py_starts_with name "claude"

/-- Test of model_factory.py line 254: the Ollama family names. -/
def is_ollama_family (name : String) : Bool :=
  name = "mistral" || name = "llama" || name = "llama2" || name = "codellama"
    || py_starts_with name "mistral" || py_starts_with name "llama"

/-- LLMFactory.get_llm_client (app/llm/model_factory.py lines 233 to 259).
A falsy model name (absent or empty) falls back to the configured default;
the chain of family tests then selects a client.  The NotImplementedError
for the claude family is the error case; the Bool flag records whether the
unknown-model warning was logged. -/
def get_llm_client (model_name : Option String) (default_model : String) :
    Except String (ClientImpl × Bool) :=
  let name := match model_name with
    | none => default_model
    | some s => if s = "" then default_model else s
  if is_openai_family name then
    Except.ok (ClientImpl.openAIClient name, false)
  else if is_claude_family name then
    Except.error ("Support for " ++ name ++ " not yet implemented")
  else if is_ollama_family name then
    Except.ok (ClientImpl.ollamaClient name, false)
  else
    Except.ok (ClientImpl.openAIClient name, true)

/-- The client constructed by stream_llm_response (app/routes/sse.py line
64): the route builds LLMClient directly from the requested model name and
does not consult LLMFactory. -/
def sse_select_client (model_name : Option String) : ClientImpl :=
  ClientImpl.legacyLLMClient model_name

/-! ## Query execution and the REST route handlers (app/routes/api.py) -/

/-- Embeds execute_query from app/models/dynamic.py lines 34 to 41: the raw
SQL and its bound parameters go to the connection, and all fetched rows come
back; a raised database exception is the error case. -/
def execute_query (db : DB) (query : String) (params : List (String × Value)) :
    Except String (List (List Value)) :=
  db query params

/-- Assignment m[k] = v on a Python dict represented as an association list
in insertion order: an existing key is overwritten in place, a new key is
appended. -/
def pyDictSet (m : List (String × Value)) (k : String) (v : Value) :
    List (String × Value) :=
  if m.any (fun p => p.1 = k) then
    m.map (fun p => if p.1 = k then (k, v) else p)
  else m ++ [(k, v)]

/-- The INSERT text of create_row as a function of the table name and the
field keys alone.  The theorems compare the SQL actually issued by
create_row against this key-only builder. -/
def insert_sql (table_name : String) (keys : List String) : String :=
  "INSERT INTO " ++ table_name ++ " (" ++ String.intercalate ", " keys
    ++ ") VALUES (" ++ String.intercalate ", " (keys.map (fun k => ":" ++ k))
    ++ ") RETURNING *"

/-- The UPDATE text of update_row as a function of the table name, the field
keys and the match-key column alone. -/
def update_sql (table_name : String) (keys : List String) (pk : String) : String :=
  "UPDATE " ++ table_name ++ " SET "
    ++ String.intercalate ", " (keys.map (fun k => k ++ " = :" ++ k))
    ++ " WHERE " ++ pk ++ " = :id RETURNING *"

/-- The DELETE text of delete_row as a function of the table name and the
match-key column. -/
def delete_sql (table_name : String) (pk : String) : String :=
  "DELETE FROM " ++ table_name ++ " WHERE " ++ pk ++ " = :id RETURNING *"

/-- Responses of POST /tables/name/rows (create_row). -/
inductive CreateResp
  | tableNotFound
  | noData
  | serverError (msg : String)
  | created (row : List (String × Value))
  deriving DecidableEq

/-- The create_row handler (app/routes/api.py lines 97 to 155).  The result
also carries the list of SQL statements issued, each with its bound
parameters, so the theorems can speak about what reached the database.
Branches in source order: missing table gives 404; a falsy JSON body gives
400; otherwise the column list and the named-parameter list are built from
the field map without any validation of the keys, the INSERT runs, and the
first returned row is zipped with the column names of the table (an empty
result would raise IndexError, answered as a 500). -/
def create_row (cat : Catalog) (db : DB) (table_name : String)
    (data : Option (List (String × Value))) :
    CreateResp × List (String × List (String × Value)) :=
  match get_table_info cat table_name with
  | none => (CreateResp.tableNotFound, [])
  | some info =>
    match data with
    | none => (CreateResp.noData, [])
    | some d =>
      if d = [] then (CreateResp.noData, [])
      else
        let columns := d.map Prod.fst
        let values := d.map (fun p => ":" ++ p.1)
        let params := d
        let query := "INSERT INTO " ++ table_name ++ " ("
          ++ String.intercalate ", " columns ++ ") VALUES ("
          ++ String.intercalate ", " values ++ ") RETURNING *"
        let resp := match execute_query db query params with
          | Except.error e => CreateResp.serverError e
          | Except.ok [] => CreateResp.serverError "list index out of range"
          | Except.ok (r0 :: _) =>
              CreateResp.created ((info.columns.map ColumnInfo.name).zip r0)
        (resp, [(query, params)])

/-- Responses of PUT /tables/name/rows/id (update_row). -/
inductive UpdateResp
  | tableNotFound
  | noData
  | noPrimaryKey
  | rowNotFound (pk : String)
  | serverError (msg : String)
  | updated (row : List (String × Value))
  deriving DecidableEq

/-- The update_row handler (app/routes/api.py lines 157 to 231).  Branches
in source order: missing table gives 404; falsy body gives 400; a table
without primary keys gives 400 before any SQL is issued; otherwise the first
declared primary-key column is the match key, the id parameter is added to
the dict of bound values, the UPDATE runs, and an empty result gives 404. -/
def update_row (cat : Catalog) (db : DB) (table_name : String) (row_id : String)
    (data : Option (List (String × Value))) :
    UpdateResp × List (String × List (String × Value)) :=
  match get_table_info cat table_name with
  | none => (UpdateResp.tableNotFound, [])
  | some info =>
    match data with
    | none => (UpdateResp.noData, [])
    | some d =>
      if d = [] then (UpdateResp.noData, [])
      else
        match info.primary_keys with
        | [] => (UpdateResp.noPrimaryKey, [])
        | pk :: _ =>
          let params := pyDictSet d "id" (Value.str row_id)
          let query := "UPDATE " ++ table_name ++ " SET "
            ++ String.intercalate ", " (d.map (fun p => p.1 ++ " = :" ++ p.1))
            ++ " WHERE " ++ pk ++ " = :id RETURNING *"
          let resp := match execute_query db query params with
            | Except.error e => UpdateResp.serverError e
            | Except.ok [] => UpdateResp.rowNotFound pk
            | Except.ok (r0 :: _) =>
                UpdateResp.updated ((info.columns.map ColumnInfo.name).zip r0)
          (resp, [(query, params)])

/-- Responses of DELETE /tables/name/rows/id (delete_row). -/
inductive DeleteResp
  | tableNotFound
  | noPrimaryKey
  | rowNotFound (pk : String)
  | serverError (msg : String)
  | deleted (pk : String)
  deriving DecidableEq

/-- The delete_row handler (app/routes/api.py lines 233 to 276).  Branches
in source order: missing table gives 404; a table without primary keys gives
400 before any SQL is issued; otherwise the first declared primary-key
column is the match key, the DELETE runs with the id as its only bound
parameter, and an empty result gives 404. -/
def delete_row (cat : Catalog) (db : DB) (table_name : String) (row_id : String) :
    DeleteResp × List (String × List (String × Value)) :=
  match get_table_info cat table_name with
  | none => (DeleteResp.tableNotFound, [])
  | some info =>
    match info.primary_keys with
    | [] => (DeleteResp.noPrimaryKey, [])
    | pk :: _ =>
      let params := [("id", Value.str row_id)]
      let query := "DELETE FROM " ++ table_name ++ " WHERE " ++ pk
        ++ " = :id RETURNING *"
      let resp := match execute_query db query params with
        | Except.error e => DeleteResp.serverError e
        | Except.ok [] => DeleteResp.rowNotFound pk
        | Except.ok (_ :: _) => DeleteResp.deleted pk
      (resp, [(query, params)])

/-- Responses of GET /tables/name/rows (get_table_rows). -/
inductive RowsResp
  | tableNotFound
  | serverError (msg : String)
  | ok (rows : List (List (String × Value))) (count : Nat) (limit : Int) (offset : Int)
  deriving DecidableEq

/-- The get_table_rows handler (app/routes/api.py lines 49 to 95).  The
limit and offset query parameters default to 100 and 0, travel only as
bound parameters, and are echoed in the response.  Each fetched row becomes
a mapping from the column names of the table to the positional values; a
fetched row shorter than the column list would raise IndexError, answered
as a 500.  The count field is the length of the row list. -/
def get_table_rows (cat : Catalog) (db : DB) (table_name : String)
    (limitParam : Option Int) (offsetParam : Option Int) : RowsResp :=
  match get_table_info cat table_name with
  | none => RowsResp.tableNotFound
  | some info =>
    let limit := limitParam.getD 100
    let offset := offsetParam.getD 0
    let query := "SELECT * FROM " ++ table_name ++ " LIMIT :limit OFFSET :offset"
    match execute_query db query
        [("limit", Value.int limit), ("offset", Value.int offset)] with
    | Except.error e => RowsResp.serverError e
    | Except.ok results =>
      let columns := info.columns.map ColumnInfo.name
      if results.all (fun r => columns.length ≤ r.length) then
        let rows := results.map (fun r => columns.zip r)
        RowsResp.ok rows rows.length limit offset
      else RowsResp.serverError "list index out of range"

/-- The select test of execute_sql (app/routes/api.py line 297): the Python
expression query.strip().lower().startswith of the word select. -/
def select_like (q : String) : Bool :=
  py_starts_with (pyLower (pyStrip q)) "select"

/-- Responses of POST /execute (execute_sql). -/
inductive ExecResp
  | queryMissing
  | serverError (msg : String)
  | rows (rows : List (List Value)) (count : Nat)
  | affected (rows_affected : Nat)
  deriving DecidableEq

/-- The execute_sql handler (app/routes/api.py lines 278 to 313): a missing
query gives 400; otherwise the text runs with its bound parameters; when the
trimmed text starts with select case-insensitively the fetched rows are
returned, and otherwise the response reports the length of the result as
the affected-row count, with a falsy result reported as zero. -/
def execute_sql (db : DB) (query : Option String)
    (params : List (String × Value)) : ExecResp :=
  match query with
  | none => ExecResp.queryMissing
  | some q =>
    match execute_query db q params with
    | Except.error e => ExecResp.serverError e
    | Except.ok result =>
      if select_like q then ExecResp.rows result result.length
      else ExecResp.affected (if result = [] then 0 else result.length)

/-! ## Context building (app/utils/db_utils.py) -/

/-- One column line of get_db_schema_description (db_utils.py lines 15 to
18). -/
def column_line (c : ColumnInfo) : String :=
  "  - " ++ c.name ++ ": " ++ c.type_ ++ " "
    ++ (if c.nullable then "NULL" else "NOT NULL")
    ++ (match c.default with
        | none => ""
        | some dflt => " DEFAULT " ++ dflt)
    ++ (if c.primary_key then " (Primary Key)" else "")
    ++ "\n"

/-- One foreign-key line of get_db_schema_description (db_utils.py lines 22
to 25). -/
def fk_line (fk : FKInfo) : String :=
  "  - " ++ String.intercalate ", " fk.constrained_columns ++ " -> "
    ++ fk.referred_table ++ "("
    ++ String.intercalate ", " fk.referred_columns ++ ")\n"

/-- The per-table block of get_db_schema_description (db_utils.py lines 10
to 27), with the foreign-key section present only when the table has
foreign keys. -/
def table_block (info : TableInfo) : String :=
  "Table: " ++ info.name ++ "\n" ++ "Columns:\n"
    ++ String.join (info.columns.map column_line)
    ++ (if info.foreign_keys = [] then ""
        else "Foreign Keys:\n" ++ String.join (info.foreign_keys.map fk_line))
    ++ "\n"

/-- Embeds get_db_schema_description (db_utils.py lines 3 to 29). -/
def get_db_schema_description (cat : Catalog) : String :=
  "Database Schema:\n\n" ++ String.join (cat.map table_block)

/-- Embeds get_table_row_count (db_utils.py lines 58 to 66).  The try block
covers both the count query and the indexing of its result, so a raised
database error and an empty result both render as the inline error text. -/
def get_table_row_count (db : DB) (table_name : String) : String :=
  match execute_query db ("SELECT COUNT(*) FROM " ++ table_name) [] with
  | Except.error e => "Error counting rows in " ++ table_name ++ ": " ++ e
  | Except.ok [] =>
      "Error counting rows in " ++ table_name ++ ": list index out of range"
  | Except.ok ([] :: _) =>
      "Error counting rows in " ++ table_name ++ ": list index out of range"
  | Except.ok ((v :: _) :: _) =>
      "Table " ++ table_name ++ " has " ++ pyStr v ++ " rows."

/-- Python string repetition of the dash character, with a nonpositive
repeat count producing the empty string. -/
def dash_sep (n : Int) : String :=
  String.mk (List.replicate n.toNat (Char.ofNat 45))

/-- Embeds get_table_sample_data (db_utils.py lines 31 to 56): an unknown
table renders a not-found line; a raised database error renders as the
inline error text; otherwise a header of column names, a dash separator
line, and one pipe-delimited line per fetched row. -/
def get_table_sample_data (cat : Catalog) (db : DB) (table_name : String)
    (limit : Nat) : String :=
  match get_table_info cat table_name with
  | none => "Table " ++ table_name ++ " not found."
  | some info =>
    match execute_query db
        ("SELECT * FROM " ++ table_name ++ " LIMIT " ++ toString limit) [] with
    | Except.error e =>
        "Error retrieving sample data from " ++ table_name ++ ": " ++ e
    | Except.ok results =>
      let columns := info.columns.map ColumnInfo.name
      "Sample data from " ++ table_name ++ " (showing up to "
        ++ toString limit ++ " rows):\n\n"
        ++ String.intercalate " | " columns ++ "\n"
        ++ dash_sep ((columns.foldl (fun a c => a + (c.length : Int)) 0)
             + 3 * ((columns.length : Int) - 1)) ++ "\n"
        ++ String.join (results.map (fun row =>
             String.intercalate " | " (row.map pyStr) ++ "\n"))

/-- The concatenation of the per-table context blocks in caller-supplied
order: for each table name one row-count line then one sample block, each
followed by a newline, as appended by generate_context_for_llm. -/
def per_table_blocks (cat : Catalog) (db : DB) : List String → String
  | [] => ""
  | n :: rest =>
      ("\n" ++ get_table_row_count db n ++ "\n"
        ++ get_table_sample_data cat db n 5 ++ "\n")
      ++ per_table_blocks cat db rest

/-- Embeds generate_context_for_llm (db_utils.py lines 68 to 86): the schema
description first, then, when a truthy table list is given, the row-count
line and sample block of each table in order, then, when a truthy query is
given, the literal query text. -/
def generate_context_for_llm (cat : Catalog) (db : DB) (query : Option String)
    (table_names : Option (List String)) : String :=
  let context := get_db_schema_description cat
  let context := match table_names with
    | none => context
    | some ns =>
      if ns = [] then context
      else ns.foldl (fun c n =>
        c ++ "\n" ++ get_table_row_count db n ++ "\n"
          ++ get_table_sample_data cat db n 5 ++ "\n") context
  match query with
  | none => context
  | some q => if q = "" then context else context ++ "\nUser Query: " ++ q ++ "\n"

/-! ## Concrete fixtures used by witnesses and counterexamples -/

/-- A reflected users table with an integer primary key id and a text
column name. -/
def usersTable : TableInfo :=
  ⟨"users",
   [⟨"id", "INTEGER", false, none, true⟩,
    ⟨"name", "VARCHAR", true, none, false⟩],
   [], ["id"]⟩

/-- A reflected pk-less log table. -/
def logTable : TableInfo :=
  ⟨"log", [⟨"line", "VARCHAR", true, none, false⟩], [], []⟩

/-- A catalog holding the two fixture tables. -/
def cat0 : Catalog := [usersTable, logTable]

/-- A database oracle answering every statement with one fixed row. -/
def db0 : DB := fun _ _ => Except.ok [[Value.int 1, Value.str "x"]]

/-- A database oracle refusing every statement. -/
def dbFail : DB := fun _ _ => Except.error "connection refused"

/-- A database oracle answering every statement with no rows. -/
def dbEmpty : DB := fun _ _ => Except.ok []

/-- A constructed LLMClient instance with a key, the default endpoint and
the default model. -/
def client0 : LLMClientInst :=
  ⟨"test-key", "https://api.openai.com/v1/chat/completions", "gpt-3.5-turbo"⟩

/-! ## Theorems -/

/-- C1 counterexample: on the existing users table, whose columns are id and
name only, create_row interpolates the field key evil straight into the
issued INSERT text although evil is not a column of the TableDescriptor, so
the claimed validation of field keys does not happen. -/
theorem C1_counterexample :
    (create_row cat0 db0 "users" (some [("evil", Value.str "x")])).2
      = [("INSERT INTO users (evil) VALUES (:evil) RETURNING *",
          [("evil", Value.str "x")])]
  ∧ usersTable.columns.map ColumnInfo.name = ["id", "name"]
  ∧ ¬ ("evil" ∈ usersTable.columns.map ColumnInfo.name) := by
  refine ⟨by decide, by decide, by decide⟩

/-- C1 amended: for every insertRow call on an existing table with a
nonempty field map, exactly one SQL statement is issued; its text is
determined by the table name and the field keys alone, so value content is
never concatenated into SQL text, and every value travels in the bound
named-parameter map; the field keys themselves are interpolated without
being validated against the TableDescriptor. -/
theorem C1_amended (cat : Catalog) (db : DB) (t : String)
    (d : List (String × Value)) (info : TableInfo)
    (hT : get_table_info cat t = some info) (hd : d ≠ []) :
    (create_row cat db t (some d)).2 = [(insert_sql t (d.map Prod.fst), d)] := by
  simp [create_row, hT, hd, insert_sql, List.map_map, Function.comp_def]

/-- Witness for C1_amended at a concrete catalog, oracle and field map. -/
theorem C1_witness :
    get_table_info cat0 "users" = some usersTable
  ∧ ([("name", Value.str "Ada")] : List (String × Value)) ≠ []
  ∧ (create_row cat0 db0 "users" (some [("name", Value.str "Ada")])).2
      = [(insert_sql "users" ["name"], [("name", Value.str "Ada")])] :=
  ⟨by decide, by decide,
   C1_amended cat0 db0 "users" [("name", Value.str "Ada")] usersTable
     (by decide) (by decide)⟩

/-- C2 counterexample: at a concrete valid prompt with the upstream
unreachable, the handler answers with a single error-payload message, not
with an event stream, so the claimed started, error, close sequence is
never emitted; the error text is the attribute error, not a
transport-failure message. -/
theorem C2_counterexample :
    (stream_llm_response client0 (some "How many users?")
        (HttpStreamOutcome.requestFail "connection refused")
      = RouteResponse.errorMessage
          "AttributeError: LLMClient object has no attribute model_name")
  ∧ (∀ es, stream_llm_response client0 (some "How many users?")
        (HttpStreamOutcome.requestFail "connection refused")
      ≠ RouteResponse.stream es) := by
  refine ⟨rfl, ?_⟩
  intro es h
  simp [stream_llm_response, llm_client_getattr] at h

/-- C2 amended: for every POST /sse/llm request with a valid prompt,
whatever the upstream outcome, the handler raises AttributeError while
logging llm_client.model_name, an attribute LLMClient never sets, and the
response is a single message event carrying the attribute-error text; no
started, chunk, completed, error or close lifecycle events are emitted and
the upstream is never contacted. -/
theorem C2_amended (c : LLMClientInst) (prompt : String)
    (up : HttpStreamOutcome) :
    stream_llm_response c (some prompt) up
      = RouteResponse.errorMessage
          "AttributeError: LLMClient object has no attribute model_name" := rfl

/-- C3 counterexample: for the requested model llama2 the factory selects
the Ollama prompt-completion client, but stream_llm_response constructs the
legacy LLMClient, which posts a chat-messages payload, so the provider that
serves the request is not the one chosen by the factory. -/
theorem C3_counterexample :
    get_llm_client (some "llama2") "gpt-3.5-turbo"
      = Except.ok (ClientImpl.ollamaClient "llama2", false)
  ∧ sse_select_client (some "llama2") = ClientImpl.legacyLLMClient (some "llama2")
  ∧ payload_shape (sse_select_client (some "llama2")) = PayloadShape.chatMessages
  ∧ payload_shape (ClientImpl.ollamaClient "llama2") = PayloadShape.promptField
  ∧ PayloadShape.chatMessages ≠ PayloadShape.promptField := by
  refine ⟨rfl, rfl, rfl, rfl, by decide⟩

/-- C3 amended: every POST /sse/llm request is served by the legacy
LLMClient, a chat-completion style provider, regardless of the requested
model name; the route never consults the factory. -/
theorem C3_amended (model_name : Option String) :
    sse_select_client model_name = ClientImpl.legacyLLMClient model_name
  ∧ payload_shape (sse_select_client model_name) = PayloadShape.chatMessages :=
  ⟨rfl, rfl⟩

/-- C7: the factory maps gpt-4 to the chat-completion client with no
warning, llama2 to the prompt-completion client, an absent or empty model
name to the same client the configured default name maps to, claude-2 to
the not-implemented failure, and any name outside the three recognized
families to the chat-completion client with a warning, never a failure. -/
theorem C7_selector_policy :
    (∀ d, get_llm_client (some "gpt-4") d
        = Except.ok (ClientImpl.openAIClient "gpt-4", false))
  ∧ (∀ d, get_llm_client (some "llama2") d
        = Except.ok (ClientImpl.ollamaClient "llama2", false))
  ∧ (∀ d, get_llm_client none d = get_llm_client (some d) d)
  ∧ (∀ d, get_llm_client (some "") d = get_llm_client (some d) d)
  ∧ (∀ d, get_llm_client (some "claude-2") d
        = Except.error "Support for claude-2 not yet implemented")
  ∧ (∀ name d, is_openai_family name = false → is_claude_family name = false →
      is_ollama_family name = false → name ≠ "" →
      get_llm_client (some name) d
        = Except.ok (ClientImpl.openAIClient name, true)) := by
  refine ⟨fun d => rfl, fun d => rfl, ?_, ?_, fun d => rfl, ?_⟩
  · intro d
    simp [get_llm_client, ite_self]
  · intro d
    simp [get_llm_client, ite_self]
  · intro name d h1 h2 h3 h4
    simp [get_llm_client, h1, h2, h3, h4]

/-- C4 code-bug evidence: at a valid prompt and a well-behaved upstream
delivering one delta and the terminal sentinel, the handler answers with
the attribute-error message instead of any event stream, and the generator
itself, if it were consumed, would raise at its first yield before emitting
the started event, because its started payload reads llm_client.model_name,
an attribute LLMClient never sets. -/
theorem C4_crash_eval :
    (stream_llm_response client0 (some "How many users?")
        (HttpStreamOutcome.ok [UpEvent.delta "There are 42 users.", UpEvent.done])
      = RouteResponse.errorMessage
          "AttributeError: LLMClient object has no attribute model_name")
  ∧ (generate (llm_client_getattr client0 "model_name")
        ((stream_response (HttpStreamOutcome.ok
            [UpEvent.delta "There are 42 users.", UpEvent.done])).map UpItem.chunk)
      = GenOutcome.raised
          "AttributeError: LLMClient object has no attribute model_name") :=
  ⟨rfl, rfl⟩

/-- C5: for every executed query text, a text whose stripped and lowered
form starts with select answers with the fetched rows and their count,
while any other text answers with the length of the fetched result as the
affected-row count. -/
theorem C5_execute_dispatch (db : DB) (q : String) (p : List (String × Value))
    (result : List (List Value))
    (h : execute_query db q p = Except.ok result) :
    execute_sql db (some q) p
      = if select_like q then ExecResp.rows result result.length
        else ExecResp.affected result.length := by
  simp only [execute_sql, h]
  by_cases hs : select_like q
  · simp [hs]
  · cases result <;> simp [hs]

/-- Witness for C5_execute_dispatch at a concrete oracle, one select text
and one non-select text. -/
theorem C5_witness :
    (execute_query db0 " SELECT * FROM users" []
      = Except.ok [[Value.int 1, Value.str "x"]])
  ∧ (execute_query db0 "DELETE FROM users" []
      = Except.ok [[Value.int 1, Value.str "x"]])
  ∧ (execute_sql db0 (some " SELECT * FROM users") []
      = if select_like " SELECT * FROM users" then
          ExecResp.rows [[Value.int 1, Value.str "x"]] 1
        else ExecResp.affected 1)
  ∧ (execute_sql db0 (some "DELETE FROM users") []
      = if select_like "DELETE FROM users" then
          ExecResp.rows [[Value.int 1, Value.str "x"]] 1
        else ExecResp.affected 1) :=
  ⟨rfl, rfl,
   C5_execute_dispatch db0 " SELECT * FROM users" [] _ rfl,
   C5_execute_dispatch db0 "DELETE FROM users" [] _ rfl⟩

/-- C8: on an existing table, update_row with a nonempty field map and
delete_row answer the missing primary key with the 400 precondition
response and issue no SQL at all; when the table has primary keys the first
declared one is the match key of the single issued statement, and a result
with zero rows yields the 404 not-found response. -/
theorem C8_pk_and_notfound (cat : Catalog) (db : DB) (t : String) (rid : String)
    (d : List (String × Value)) (info : TableInfo)
    (hT : get_table_info cat t = some info) (hd : d ≠ []) :
    (info.primary_keys = [] →
        update_row cat db t rid (some d) = (UpdateResp.noPrimaryKey, [])
      ∧ delete_row cat db t rid = (DeleteResp.noPrimaryKey, []))
  ∧ (∀ pk rest, info.primary_keys = pk :: rest →
        ((update_row cat db t rid (some d)).2.map Prod.fst
            = [update_sql t (d.map Prod.fst) pk])
      ∧ (execute_query db (update_sql t (d.map Prod.fst) pk)
            (pyDictSet d "id" (Value.str rid)) = Except.ok []
          → (update_row cat db t rid (some d)).1 = UpdateResp.rowNotFound pk)
      ∧ ((delete_row cat db t rid).2.map Prod.fst = [delete_sql t pk])
      ∧ (execute_query db (delete_sql t pk) [("id", Value.str rid)]
            = Except.ok []
          → (delete_row cat db t rid).1 = DeleteResp.rowNotFound pk)) := by
  constructor
  · intro hpk
    constructor
    · simp [update_row, hT, hd, hpk]
    · simp [delete_row, hT, hpk]
  · intro pk rest hpk
    refine ⟨?_, ?_, ?_, ?_⟩
    · simp [update_row, hT, hd, hpk, update_sql, List.map_map, Function.comp_def]
    · intro hdb
      simp [update_row, hT, hd, hpk, update_sql, List.map_map,
        Function.comp_def] at hdb ⊢
      simp [hdb]
    · simp [delete_row, hT, hpk, delete_sql]
    · intro hdb
      simp [delete_row, hT, hpk, delete_sql] at hdb ⊢
      simp [hdb]

/-- Witness for C8_pk_and_notfound: on the users table with primary key id
and an oracle matching zero rows, both calls answer not found. -/
theorem C8_witness :
    (update_row cat0 dbEmpty "users" "7" (some [("name", Value.str "Ada")])).1
      = UpdateResp.rowNotFound "id"
  ∧ (delete_row cat0 dbEmpty "users" "7").1 = DeleteResp.rowNotFound "id" := by
  have h := C8_pk_and_notfound cat0 dbEmpty "users" "7"
    [("name", Value.str "Ada")] usersTable (by decide) (by decide)
  obtain ⟨-, h2⟩ := h
  obtain ⟨-, hu, -, hdel⟩ := h2 "id" [] (by decide)
  exact ⟨hu rfl, hdel rfl⟩

/-- C10: every successful GET rows response reports as count the length of
its row list, and echoes the limit and offset parameters with defaults 100
and 0. -/
theorem C10_rows_response (cat : Catalog) (db : DB) (t : String)
    (lp : Option Int) (op : Option Int)
    (rows : List (List (String × Value))) (count : Nat) (l : Int) (o : Int)
    (h : get_table_rows cat db t lp op = RowsResp.ok rows count l o) :
    count = rows.length ∧ l = lp.getD 100 ∧ o = op.getD 0 := by
  simp only [get_table_rows] at h
  split at h
  · exact absurd h (by simp)
  · split at h
    · exact absurd h (by simp)
    · split at h
      · rw [RowsResp.ok.injEq] at h
        obtain ⟨hr, hc, hl, ho⟩ := h
        subst hr
        exact ⟨hc.symm, hl.symm, ho.symm⟩
      · exact absurd h (by simp)

/-- Witness for C10_rows_response at a concrete catalog and oracle. -/
theorem C10_witness :
    (1 : Nat) = [[("id", Value.int 1), ("name", Value.str "x")]].length
  ∧ (100 : Int) = (none : Option Int).getD 100
  ∧ (5 : Int) = (some (5 : Int)).getD 0 :=
  C10_rows_response cat0 db0 "users" none (some 5)
    [[("id", Value.int 1), ("name", Value.str "x")]] 1 100 5 (by decide)

/-- The fold that appends the per-table context blocks equals the initial
string followed by the block concatenation. -/
theorem foldl_append_blocks (cat : Catalog) (db : DB) (ns : List String)
    (init : String) :
    ns.foldl (fun c n =>
      c ++ "\n" ++ get_table_row_count db n ++ "\n"
        ++ get_table_sample_data cat db n 5 ++ "\n") init
    = init ++ per_table_blocks cat db ns := by
  induction ns generalizing init with
  | nil => simp [per_table_blocks]
  | cons n rest ih =>
    rw [List.foldl_cons, ih, per_table_blocks]
    simp [String.append_assoc]

/-- C9: for every nonempty query and table list, the generated context is
the schema description, then the row-count line and sample block of each
requested table in caller order, then the literal query text; and an error
raised by the database while sampling a known table renders as inline error
text in the sample block instead of propagating. -/
theorem C9_context_layout (cat : Catalog) (db : DB) (q : String)
    (ns : List String) (hq : q ≠ "") (hns : ns ≠ []) :
    (generate_context_for_llm cat db (some q) (some ns)
      = get_db_schema_description cat ++ per_table_blocks cat db ns
          ++ ("\nUser Query: " ++ q ++ "\n"))
  ∧ (∀ n info e, get_table_info cat n = some info →
      execute_query db ("SELECT * FROM " ++ n ++ " LIMIT " ++ toString (5 : Nat)) []
        = Except.error e →
      get_table_sample_data cat db n 5
        = "Error retrieving sample data from " ++ n ++ ": " ++ e) := by
  constructor
  · simp only [generate_context_for_llm]
    rw [if_neg hns, if_neg hq, foldl_append_blocks]
    simp [String.append_assoc]
  · intro n info e hT hdb
    simp [get_table_sample_data, hT, hdb]

/-- Witness for C9_context_layout at a concrete catalog, a failing oracle,
a query and one table name. -/
theorem C9_witness :
    (generate_context_for_llm cat0 dbFail (some "How many users?")
        (some ["users"])
      = get_db_schema_description cat0 ++ per_table_blocks cat0 dbFail ["users"]
          ++ ("\nUser Query: " ++ "How many users?" ++ "\n"))
  ∧ get_table_sample_data cat0 dbFail "users" 5
      = "Error retrieving sample data from " ++ "users" ++ ": "
          ++ "connection refused" := by
  have h := C9_context_layout cat0 dbFail "How many users?" ["users"]
    (by decide) (by decide)
  exact ⟨h.1, h.2 "users" usersTable "connection refused" (by decide) rfl⟩

/-- Witness for C7_selector_policy discharging the unrecognized-name part
at a concrete name. -/
theorem C7_witness :
    is_openai_family "foo-model" = false
  ∧ is_claude_family "foo-model" = false
  ∧ is_ollama_family "foo-model" = false
  ∧ "foo-model" ≠ ""
  ∧ get_llm_client (some "foo-model") "gpt-3.5-turbo"
      = Except.ok (ClientImpl.openAIClient "foo-model", true) :=
  ⟨by decide, by decide, by decide, by decide,
   C7_selector_policy.2.2.2.2.2 "foo-model" "gpt-3.5-turbo"
     (by decide) (by decide) (by decide) (by decide)⟩

end MCP
